import Mathlib

set_option maxHeartbeats 1000000

namespace OpenPay

/-- JSON/JS values as produced by JSON.parse: no undefined, numbers are finite. -/
inductive Json where
  | null : Json
  | bool (b : Bool) : Json
  | num (q : ℚ) : Json
  | str (s : String) : Json
  | arr (xs : List Json) : Json
  | obj (fields : List (String × Json)) : Json

/-- Property lookup on a JS object: JSON.parse keeps the last duplicate key. -/
def lookupLast (fs : List (String × Json)) (k : String) : Option Json :=
  match fs with
  | [] => none
  | (k', v) :: rest =>
    match lookupLast rest k with
    | some r => some r
    | none => if k' = k then some v else none

/-- `j.k` / `j["k"]` property access; non-objects have no own properties. -/
def Json.getField : Json → String → Option Json
  | .obj fs, k => lookupLast fs k
  | _, _ => none

/-- Is this value JSON null? -/
def Json.isNull : Json → Bool
  | .null => true
  | _ => false

/-- JS truthiness of a parsed-JSON value. -/
def truthy : Json → Bool
  | .null => false
  | .bool b => b
  | .num q => q ≠ 0
  | .str s => s ≠ ""
  | .arr _ => true
  | .obj _ => true

/-- Whitespace for String.prototype.trim (the ASCII forms; the further Unicode
space characters JS also trims cannot occur in this repository's data). -/
def isWsChar (c : Char) : Bool :=
  c = ' ' ∨ c = '\t' ∨ c = '\n' ∨ c = '\r' ∨ c.toNat = 11 ∨ c.toNat = 12

/-- JS `s.trim()`. -/
def trimStr (s : String) : String :=
  String.mk (((s.data.dropWhile isWsChar).reverse.dropWhile isWsChar).reverse)

def startsWithChars : List Char → List Char → Bool
  | [], _ => true
  | _ :: _, [] => false
  | p :: ps, c :: cs => p = c && startsWithChars ps cs

/-- JS `s.startsWith(pat)`. -/
def startsWithStr (s pat : String) : Bool :=
  startsWithChars pat.data s.data

/-- Splits at the first occurrence of pat: the part before and the part after. -/
def splitAtSub (cs pat : List Char) : Option (List Char × List Char) :=
  match cs with
  | [] => if startsWithChars pat [] then some ([], []) else none
  | c :: rest =>
    if startsWithChars pat (c :: rest) then some ([], (c :: rest).drop pat.length)
    else
      match splitAtSub rest pat with
      | some (pre, suf) => some (c :: pre, suf)
      | none => none

/-- JS `s.replace(pat, repl)` with a string pattern: replaces the first
occurrence only. -/
def replaceFirst (s pat repl : String) : String :=
  match splitAtSub s.data pat.data with
  | some (pre, suf) => String.mk (pre ++ repl.data ++ suf)
  | none => s

/-- Rendering of a rational as a string. This stands in for JS number-to-string
conversion; it agrees with JS on integers, which are the only numbers the
repository ever string-coerces on the paths modelled here. -/
def ratToString (q : ℚ) : String :=
  if q.den = 1 then toString q.num else toString q.num ++ "/" ++ toString q.den

mutual

/-- JS String() coercion of a parsed-JSON value. -/
def jsString : Json → String
  | .null => "null"
  | .bool b => if b then "true" else "false"
  | .num q => ratToString q
  | .str s => s
  | .arr xs => jsStringArr xs
  | .obj _ => "[object Object]"

/-- Array.prototype.toString: elements joined with commas, null rendered empty. -/
def jsStringArr : List Json → String
  | [] => ""
  | [Json.null] => ""
  | [j] => jsString j
  | Json.null :: rest => "," ++ jsStringArr rest
  | j :: rest => jsString j ++ "," ++ jsStringArr rest

end

/-- Models the idiom `String(v || "")` on a possibly-absent property value:
absent and falsy values give "", anything else its String() coercion. -/
def strCoerce (v : Option Json) : String :=
  match v with
  | none => ""
  | some j => if truthy j then jsString j else ""

/-- Models `a || b` on two possibly-absent property values. -/
def orVal (a b : Option Json) : Option Json :=
  match a with
  | some j => if truthy j then some j else b
  | none => b

/-- A JS number: a finite rational, NaN, or one of the two infinities. -/
inductive JNum where
  | fin (q : ℚ)
  | nan
  | inf
  | ninf
deriving DecidableEq

/-- Reads a maximal run of decimal digits: value, digit count, rest. -/
def readDigits (cs : List Char) (acc : Nat) (count : Nat) : Nat × Nat × List Char :=
  match cs with
  | c :: rest =>
    if c.isDigit then readDigits rest (acc * 10 + (c.toNat - 48)) (count + 1) else (acc, count, c :: rest)
  | [] => (acc, count, [])

/-- Builds the rational sign * (ip + fp/10^fpCount) * 10^exp from integer
parts, using only integer arithmetic and one normalization. -/
def decToRat (sgn : ℤ) (ip fp fpCount : Nat) (exp : ℤ) : ℚ :=
  let mantNum : ℤ := sgn * ((ip * 10 ^ fpCount + fp : Nat) : ℤ)
  if 0 ≤ exp then mkRat (mantNum * ((10 ^ exp.toNat : Nat) : ℤ)) (10 ^ fpCount)
  else mkRat mantNum (10 ^ fpCount * 10 ^ (-exp).toNat)

/-- Parses a decimal numeric literal [sign] digits [. digits] [e [sign] digits],
requiring the whole input to be consumed. -/
def parseDecCore (cs : List Char) : Option ℚ :=
  let sr : ℤ × List Char :=
    match cs with
    | '+' :: r => (1, r)
    | '-' :: r => (-1, r)
    | _ => (1, cs)
  let (ip, ipCount, cs2) := readDigits sr.2 0 0
  let fr : Nat × Nat × List Char :=
    match cs2 with
    | '.' :: r => readDigits r 0 0
    | _ => (0, 0, cs2)
  let (fp, fpCount, cs3) := fr
  if ipCount = 0 ∧ fpCount = 0 then none
  else
    match cs3 with
    | [] => some (decToRat sr.1 ip fp fpCount 0)
    | e :: r =>
      if e = 'e' ∨ e = 'E' then
        let er : ℤ × List Char :=
          match r with
          | '+' :: r2 => (1, r2)
          | '-' :: r2 => (-1, r2)
          | _ => (1, r)
        let (ev, eCount, r3) := readDigits er.2 0 0
        if eCount = 0 ∨ r3 ≠ [] then none
        else some (decToRat sr.1 ip fp fpCount (er.1 * (ev : ℤ)))
      else none

/-- JS Number() applied to a string: trim, empty gives 0, the Infinity forms,
else a decimal literal, else NaN. The hexadecimal/octal/binary literal forms JS
also accepts are not modelled -- nothing in this repository produces them. -/
def jnumOfString (s : String) : JNum :=
  let t := trimStr s
  if t = "" then .fin 0
  else if t = "Infinity" ∨ t = "+Infinity" then .inf
  else if t = "-Infinity" then .ninf
  else
    match parseDecCore t.data with
    | some q => .fin q
    | none => .nan

/-- JS Number() coercion of a possibly-absent parsed-JSON value. -/
def toNumber (v : Option Json) : JNum :=
  match v with
  | none => .nan
  | some .null => .fin 0
  | some (.bool b) => .fin (if b then 1 else 0)
  | some (.num q) => .fin q
  | some (.str s) => jnumOfString s
  | some (.arr xs) => jnumOfString (jsStringArr xs)
  | some (.obj _) => .nan

/-- `Number.isFinite(n) && n > 0`, the validity test both validators use; a
rational is positive exactly when its (normalized) numerator is. -/
def finPos : JNum → Bool
  | .fin q => decide (0 < q.num)
  | _ => false

/-- JS `n.toFixed(7)` for a finite value; rounds q to 7 decimals half away from
zero via floor((2*num*10^7 + den) / (2*den)). Only reached for amounts already
validated to be finite and positive. -/
def toFixed7 (q : ℚ) : String :=
  let scaled : ℤ := Int.fdiv (2 * q.num * 10000000 + (q.den : ℤ)) (2 * (q.den : ℤ))
  let ip := scaled / 10000000
  let fr := (scaled % 10000000).toNat
  let frs := toString fr
  toString ip ++ "." ++ String.mk (List.replicate (7 - frs.length) '0') ++ frs

/-- `amountNumber.toFixed(7)` on a JS number. -/
def toFixedAmount : JNum → String
  | .fin q => toFixed7 q
  | .nan => "NaN"
  | .inf => "Infinity"
  | .ninf => "-Infinity"

def lbrace : Char := Char.ofNat 123

def rbrace : Char := Char.ofNat 125

def hexDigit (n : Nat) : Char :=
  if n < 10 then Char.ofNat (48 + n) else Char.ofNat (87 + n)

/-- JSON.stringify escaping for one character. -/
def escapeChar (c : Char) : String :=
  if c = '"' then "\\\""
  else if c = '\\' then "\\\\"
  else if c = '\n' then "\\n"
  else if c = '\r' then "\\r"
  else if c = '\t' then "\\t"
  else if c.toNat = 8 then "\\b"
  else if c.toNat = 12 then "\\f"
  else if c.toNat < 32 then "\\u00" ++ String.mk [hexDigit (c.toNat / 16), hexDigit (c.toNat % 16)]
  else String.mk [c]

def quoteStr (s : String) : String :=
  "\"" ++ String.join (s.data.map escapeChar) ++ "\""

mutual

/-- JSON.stringify of a parsed-JSON value (no undefined members can occur). -/
def stringify : Json → String
  | .null => "null"
  | .bool b => if b then "true" else "false"
  | .num q => ratToString q
  | .str s => quoteStr s
  | .arr xs => "[" ++ stringifyList xs ++ "]"
  | .obj fs => "\x7b" ++ stringifyFields fs ++ "\x7d"

def stringifyList : List Json → String
  | [] => ""
  | [j] => stringify j
  | j :: rest => stringify j ++ "," ++ stringifyList rest

def stringifyFields : List (String × Json) → String
  | [] => ""
  | [(k, v)] => quoteStr k ++ ":" ++ stringify v
  | (k, v) :: rest => quoteStr k ++ ":" ++ stringify v ++ "," ++ stringifyFields rest

end

def skipWs : List Char → List Char
  | c :: rest => if c = ' ' ∨ c = '\t' ∨ c = '\n' ∨ c = '\r' then skipWs rest else c :: rest
  | [] => []

def hexDigitVal (c : Char) : Option Nat :=
  if c.isDigit then some (c.toNat - 48)
  else if 'a' ≤ c ∧ c ≤ 'f' then some (c.toNat - 87)
  else if 'A' ≤ c ∧ c ≤ 'F' then some (c.toNat - 55)
  else none

def parseHex4 (cs : List Char) : Option (Nat × List Char) :=
  match cs with
  | a :: b :: c :: d :: rest =>
    match hexDigitVal a, hexDigitVal b, hexDigitVal c, hexDigitVal d with
    | some va, some vb, some vc, some vd => some (va * 4096 + vb * 256 + vc * 16 + vd, rest)
    | _, _, _, _ => none
  | _ => none

/-- Body of a JSON string literal, after the opening quote. -/
def parseStrChars (fuel : Nat) (cs : List Char) (acc : List Char) : Option (String × List Char) :=
  match fuel with
  | 0 => none
  | fuel + 1 =>
    match cs with
    | [] => none
    | '"' :: rest => some (String.mk acc.reverse, rest)
    | '\\' :: e :: rest =>
      if e = '"' ∨ e = '\\' ∨ e = '/' then parseStrChars fuel rest (e :: acc)
      else if e = 'n' then parseStrChars fuel rest ('\n' :: acc)
      else if e = 't' then parseStrChars fuel rest ('\t' :: acc)
      else if e = 'r' then parseStrChars fuel rest ('\r' :: acc)
      else if e = 'b' then parseStrChars fuel rest (Char.ofNat 8 :: acc)
      else if e = 'f' then parseStrChars fuel rest (Char.ofNat 12 :: acc)
      else if e = 'u' then
        match parseHex4 rest with
        | some (n, rest2) => parseStrChars fuel rest2 (Char.ofNat n :: acc)
        | none => none
      else none
    | c :: rest => if c.toNat < 32 then none else parseStrChars fuel rest (c :: acc)

/-- A JSON number per the strict JSON grammar. -/
def parseJsonNumber (cs : List Char) : Option (ℚ × List Char) :=
  let sr : ℤ × List Char :=
    match cs with
    | '-' :: r => (-1, r)
    | _ => (1, cs)
  match sr.2 with
  | c :: _ =>
    if ¬ c.isDigit then none
    else
      let (ip, ipCount, cs2) := readDigits sr.2 0 0
      if 1 < ipCount ∧ c = '0' then none
      else
        let fracRes : Option (Nat × Nat × List Char) :=
          match cs2 with
          | '.' :: r =>
            let (fp, fpCount, r2) := readDigits r 0 0
            if fpCount = 0 then none else some (fp, fpCount, r2)
          | _ => some (0, 0, cs2)
        match fracRes with
        | none => none
        | some (fp, fpCount, cs3) =>
          match cs3 with
          | e :: r =>
            if e = 'e' ∨ e = 'E' then
              let er : ℤ × List Char :=
                match r with
                | '+' :: r2 => (1, r2)
                | '-' :: r2 => (-1, r2)
                | _ => (1, r)
              let (ev, eCount, r3) := readDigits er.2 0 0
              if eCount = 0 then none
              else some (decToRat sr.1 ip fp fpCount (er.1 * (ev : ℤ)), r3)
            else some (decToRat sr.1 ip fp fpCount 0, e :: r)
          | [] => some (decToRat sr.1 ip fp fpCount 0, [])
  | [] => none

mutual

/-- One JSON value, fuel-indexed recursive descent. -/
def parseValue : Nat → List Char → Option (Json × List Char)
  | 0, _ => none
  | fuel + 1, cs =>
    match skipWs cs with
    | [] => none
    | c :: rest =>
      if c = lbrace then parseMembers fuel rest true []
      else if c = '[' then parseElems fuel rest true []
      else if c = '"' then
        match parseStrChars (rest.length + 1) rest [] with
        | some (s, rest2) => some (.str s, rest2)
        | none => none
      else if c = 't' then
        match rest with
        | 'r' :: 'u' :: 'e' :: r => some (.bool true, r)
        | _ => none
      else if c = 'f' then
        match rest with
        | 'a' :: 'l' :: 's' :: 'e' :: r => some (.bool false, r)
        | _ => none
      else if c = 'n' then
        match rest with
        | 'u' :: 'l' :: 'l' :: r => some (.null, r)
        | _ => none
      else
        match parseJsonNumber (c :: rest) with
        | some (q, r) => some (.num q, r)
        | none => none

/-- Members of an object after the opening brace; `first` is true when no
member has been read yet (so an immediate closing brace is the empty object). -/
def parseMembers : Nat → List Char → Bool → List (String × Json) → Option (Json × List Char)
  | 0, _, _, _ => none
  | fuel + 1, cs, first, acc =>
    match skipWs cs with
    | [] => none
    | c :: rest =>
      if c = rbrace ∧ first then some (.obj acc.reverse, rest)
      else if c = '"' then
        match parseStrChars (rest.length + 1) rest [] with
        | none => none
        | some (k, rest2) =>
          match skipWs rest2 with
          | ':' :: rest3 =>
            match parseValue fuel rest3 with
            | none => none
            | some (v, rest4) =>
              match skipWs rest4 with
              | ',' :: rest5 => parseMembers fuel rest5 false ((k, v) :: acc)
              | d :: rest5 => if d = rbrace then some (.obj ((k, v) :: acc).reverse, rest5) else none
              | [] => none
          | _ => none
      else none

/-- Elements of an array after the opening bracket. -/
def parseElems : Nat → List Char → Bool → List Json → Option (Json × List Char)
  | 0, _, _, _ => none
  | fuel + 1, cs, first, acc =>
    match skipWs cs with
    | [] => none
    | c :: rest =>
      if c = ']' ∧ first then some (.arr acc.reverse, rest)
      else
        match parseValue fuel (c :: rest) with
        | none => none
        | some (v, rest2) =>
          match skipWs rest2 with
          | ',' :: rest3 => parseElems fuel rest3 false (v :: acc)
          | ']' :: rest3 => some (.arr (v :: acc).reverse, rest3)
          | _ => none

end

/-- JSON.parse: none when the text is not valid JSON (the source treats that as
a thrown exception, caught inside `parseJson`). -/
def jsonParse (s : String) : Option Json :=
  match parseValue (4 * s.length + 8) s.data with
  | some (j, rest) => if skipWs rest = [] then some j else none
  | none => none

/-- Source `parseJson` (index.ts:18-25): an empty body gives an empty object,
valid JSON its parse, and anything else the raw text wrapped under "raw". -/
def parseJson (raw : String) : Json :=
  if raw = "" then .obj []
  else
    match jsonParse raw with
    | some j => j
    | none => .obj [("raw", .str raw)]

/-- `typeof v === "string" ? v.trim() : ""`, the idiom used on error fields. -/
def strTrimOf (v : Option Json) : String :=
  match v with
  | some (.str s) => trimStr s
  | _ => ""

/-- Source `getPiErrorMessage` (index.ts:27-44): the first nonempty-after-trim
string among payload.error, payload.message, payload.data.error,
payload.data.message, else the fallback. -/
def getPiErrorMessage (payload : Json) (fallback : String) : String :=
  let directError := strTrimOf (payload.getField "error")
  if directError ≠ "" then directError
  else
    let directMessage := strTrimOf (payload.getField "message")
    if directMessage ≠ "" then directMessage
    else
      match payload.getField "data" with
      | some (.obj fs) =>
        let nestedError := strTrimOf (lookupLast fs "error")
        if nestedError ≠ "" then nestedError
        else
          let nestedMessage := strTrimOf (lookupLast fs "message")
          if nestedMessage ≠ "" then nestedMessage else fallback
      | _ => fallback

/-- Source `asRecord` (index.ts:59-60): a truthy non-array object passes
through, anything else becomes the empty object. -/
def asRecord (v : Json) : Json :=
  match v with
  | .obj fs => .obj fs
  | _ => .obj []

/-- An upstream HTTP response as the handler observes it: response.ok,
response.status, and the body text. -/
structure HttpResp where
  ok : Bool
  status : Nat
  body : String
deriving DecidableEq

/-- The result of supabase.auth.getUser: data.user (represented by its id when
present) and the error field. -/
structure GetUserResult where
  user : Option String
  error : Option String
deriving DecidableEq

/-- A ledger account as loaded from Horizon. -/
structure LedgerAccount where
  accountId : String
  sequence : Nat
deriving DecidableEq

/-- The single payment operation of a settlement transaction. -/
structure LedgerOp where
  destination : String
  amount : String
deriving DecidableEq

/-- The transaction built by submitA2UTx before signing. -/
structure LedgerTx where
  sourceAccount : LedgerAccount
  fee : String
  networkPassphrase : String
  memoText : String
  operation : LedgerOp
  timeout : Nat
deriving DecidableEq

/-- A transaction after tx.sign(keypair). -/
structure SignedTx where
  tx : LedgerTx
  signerSecret : String
deriving DecidableEq

/-- One external call the handler makes, in program order. -/
inductive Call where
  | fetch (url method : String) (body : Option String)
  | getUser (token : String)
  | loadAccount (horizonUrl accountId : String)
  | fetchBaseFee (horizonUrl : String)
  | submitTx (horizonUrl : String) (stx : SignedTx)
deriving DecidableEq

/-- The handler's surroundings: configuration lookups, the auth backend, HTTP
fetch, and the Stellar SDK / Horizon operations. Fixing a World makes the
handler a deterministic function; fetch and the ledger operations return
`.error` to represent a rejected promise / thrown exception. -/
structure World where
  env : String → Option String
  getUser : String → GetUserResult
  fetch : String → String → Option String → Except String HttpResp
  fromSecret : String → Except String String
  loadAccount : String → String → Except String LedgerAccount
  fetchBaseFee : String → Except String Nat
  submitTx : String → SignedTx → Except String Json

/-- An HTTP response to the caller: status plus the JSON body passed to
jsonResponse (or the literal "ok" text for pre-flight). -/
structure Resp where
  status : Nat
  body : Json

/-- Is this call an HTTP fetch to the given url? -/
def isFetchTo (url : String) : Call → Bool
  | .fetch u _ _ => u = url
  | _ => false

/-- Is this call an HTTP fetch at all? -/
def isFetch : Call → Bool
  | .fetch _ _ _ => true
  | _ => false

/-- Is this call one of the three ledger (Horizon) operations? -/
def isLedgerCall : Call → Bool
  | .loadAccount _ _ => true
  | .fetchBaseFee _ => true
  | .submitTx _ _ => true
  | _ => false

/-- Source `jsonResponse` (index.ts:12-16). -/
def jsonResponse (body : Json) (status : Nat) : Resp :=
  ⟨status, body⟩

/-- What a request produced: the response and the ordered list of external
calls that were made while producing it. -/
structure Outcome where
  resp : Resp
  calls : List Call

/-- Prepends earlier calls to an outcome produced by a later stage. -/
def withCalls (pre : List Call) (o : Outcome) : Outcome :=
  ⟨o.resp, pre ++ o.calls⟩

/-- `String(Deno.env.get(name) || "")`. -/
def envStr (w : World) (name : String) : String :=
  match w.env name with
  | some s => s
  | none => ""

/-- `Boolean(Deno.env.get(name))`. -/
def envTruthy (w : World) (name : String) : Bool :=
  match w.env name with
  | some s => s ≠ ""
  | none => false

/-- The `!x || typeof x !== "string"` guard used on action, paymentId,
accessToken and adId: passes exactly for a nonempty string. -/
def nonEmptyStrField (v : Option Json) : Option String :=
  match v with
  | some (.str s) => if s = "" then none else some s
  | _ => none

/-- `typeof x === "string" ? x.trim() : ""`, used on txid, uid and memo. -/
def strFieldTrim (v : Option Json) : String :=
  match v with
  | some (.str s) => trimStr s
  | _ => ""

def piMeUrl : String := "https://api.minepi.com/v2/me"

def adStatusUrl (adId : String) : String :=
  "https://api.minepi.com/v2/ads_network/status/" ++ adId

def incompleteUrl : String :=
  "https://api.minepi.com/v2/payments/incomplete_server_payments"

def paymentsUrl : String := "https://api.minepi.com/v2/payments"

def paymentUrl (paymentId : String) : String :=
  "https://api.minepi.com/v2/payments/" ++ paymentId

/-- The ledger-client portion of submitA2UTx (index.ts:92-116): load the
signer account, fetch the base fee, build the one-operation payment
transaction with the payment identifier as text memo and a 180s timeout, sign
it with the held secret, submit, and extract the transaction hash. -/
def submitLedger (w : World) (horizonUrl signerAddress networkPassphrase paymentId toAddress : String)
    (amountNumber : JNum) (walletPrivateSeed : String) : Except String String × List Call :=
  let tr1 := [Call.loadAccount horizonUrl signerAddress]
  match w.loadAccount horizonUrl signerAddress with
  | .error e => (.error e, tr1)
  | .ok sourceAccount =>
    let tr2 := tr1 ++ [Call.fetchBaseFee horizonUrl]
    match w.fetchBaseFee horizonUrl with
    | .error e => (.error e, tr2)
    | .ok baseFee =>
      let tx : LedgerTx :=
        ⟨sourceAccount, toString baseFee, networkPassphrase, paymentId,
         ⟨toAddress, toFixedAmount amountNumber⟩, 180⟩
      let stx : SignedTx := ⟨tx, walletPrivateSeed⟩
      let tr3 := tr2 ++ [Call.submitTx horizonUrl stx]
      match w.submitTx horizonUrl stx with
      | .error e => (.error e, tr3)
      | .ok submitted =>
        let hash := trimStr (strCoerce (orVal (submitted.getField "hash") (submitted.getField "id")))
        if hash = "" then (.error "Pi blockchain submission did not return txid", tr3)
        else (.ok hash, tr3)

/-- Source `submitA2UTx` (index.ts:62-117): validates the payment record
against the wallet identity, then loads the account, fetches the base fee,
builds, signs and submits the settlement transaction. Returns the settled
transaction hash, or `.error` with the message of the exception it throws;
alongside, the ledger calls it made, in order. -/
def submitA2UTx (w : World) (payment : Json) (walletPrivateSeed expectedPublicAddress : String) :
    Except String String × List Call :=
  let paymentId := trimStr (strCoerce (payment.getField "identifier"))
  let toAddress := trimStr (strCoerce (payment.getField "to_address"))
  let fromAddress := trimStr (strCoerce (payment.getField "from_address"))
  let networkRaw := trimStr (strCoerce (payment.getField "network"))
  let networkPassphrase := if networkRaw = "" then "Pi Testnet" else networkRaw
  let amountNumber := toNumber (payment.getField "amount")
  if paymentId = "" then (.error "Missing payment identifier for blockchain submission", [])
  else if toAddress = "" then (.error "Missing payment recipient address", [])
  else if fromAddress = "" then (.error "Missing payment sender address", [])
  else if !finPos amountNumber then (.error "Invalid payment amount", [])
  else
    match w.fromSecret walletPrivateSeed with
    | .error e => (.error e, [])
    | .ok signerAddress =>
      let expectedAddress := trimStr expectedPublicAddress
      if expectedAddress ≠ "" ∧ signerAddress ≠ expectedAddress then
        (.error "PI_WALLET_PRIVATE_SEED does not match PI_WALLET_PUBLIC_ADDRESS", [])
      else if fromAddress ≠ signerAddress then
        (.error "Payment source address does not match the configured wallet seed", [])
      else
        let horizonUrl :=
          if networkPassphrase = "Pi Network" then "https://api.mainnet.minepi.com"
          else "https://api.testnet.minepi.com"
        submitLedger w horizonUrl signerAddress networkPassphrase paymentId toAddress
          amountNumber walletPrivateSeed

/-- An inbound request: HTTP method, the Authorization header when present, and
the parsed JSON body. Requests whose bodies fail to parse are outside the
model; no claim concerns them. -/
structure Req where
  method : String
  authHeader : Option String
  bodyJson : Json

/-- The single platform call ending every paymentId-based action
(index.ts:357-372), wrapped by the response normalizer. -/
def finalCall (w : World) (endpoint method : String) (body : Option Json) : Outcome :=
  let bodyStr := body.map stringify
  let tr1 := [Call.fetch endpoint method bodyStr]
  match w.fetch endpoint method bodyStr with
  | .error e => ⟨jsonResponse (.obj [("error", .str e)]) 500, tr1⟩
  | .ok piResponse =>
    let data := parseJson piResponse.body
    if !piResponse.ok then
      let fallback := "Pi payment API call failed (status " ++ toString piResponse.status ++ ")"
      ⟨jsonResponse (.obj [("error", .str (getPiErrorMessage data fallback)),
        ("status", .num (piResponse.status : ℚ)), ("data", data)]) 400, tr1⟩
    else
      ⟨jsonResponse (.obj [("success", .bool true), ("data", data)]) 200, tr1⟩

/-- The shared paymentId-based action path (index.ts:300-372). -/
def handlePaymentAction (w : World) (action : String) (paymentId txid : Option Json) : Outcome :=
  match nonEmptyStrField paymentId with
  | none => ⟨jsonResponse (.obj [("error", .str "Missing paymentId")]) 400, []⟩
  | some pid =>
    let endpointBase := paymentUrl pid
    if action = "approve" ∨ action = "payment_approve" ∨ action = "a2u_approve" then
      finalCall w (endpointBase ++ "/approve") "POST" none
    else if action = "complete" ∨ action = "payment_complete" ∨ action = "a2u_complete" then
      let explicitTxid := strFieldTrim txid
      if explicitTxid ≠ "" then
        finalCall w (endpointBase ++ "/complete") "POST"
          (some (.obj [("txid", .str explicitTxid)]))
      else if action = "a2u_complete" then
        let tr1 := [Call.fetch endpointBase "GET" none]
        match w.fetch endpointBase "GET" none with
        | .error e => ⟨jsonResponse (.obj [("error", .str e)]) 500, tr1⟩
        | .ok fetchPaymentResponse =>
          let fetchPaymentData := parseJson fetchPaymentResponse.body
          if !fetchPaymentResponse.ok then
            let fallback := "Pi payment API call failed (status " ++ toString fetchPaymentResponse.status ++ ")"
            ⟨jsonResponse (.obj [("error", .str (getPiErrorMessage fetchPaymentData fallback)),
              ("status", .num (fetchPaymentResponse.status : ℚ)), ("data", fetchPaymentData)]) 400, tr1⟩
          else
            let existingTxid := trimStr (strCoerce
              ((fetchPaymentData.getField "transaction").bind (fun t => t.getField "txid")))
            if existingTxid ≠ "" then
              withCalls tr1 (finalCall w (endpointBase ++ "/complete") "POST"
                (some (.obj [("txid", .str existingTxid)])))
            else if trimStr (strCoerce (fetchPaymentData.getField "direction")) = "app_to_user" then
              let walletPrivateSeed := trimStr (envStr w "PI_WALLET_PRIVATE_SEED")
              if walletPrivateSeed = "" then
                ⟨jsonResponse (.obj [("error", .str "PI_WALLET_PRIVATE_SEED is not configured")]) 500, tr1⟩
              else
                let walletPublicAddress := trimStr (envStr w "PI_WALLET_PUBLIC_ADDRESS")
                match submitA2UTx w fetchPaymentData walletPrivateSeed walletPublicAddress with
                | (.error e, sub) => ⟨jsonResponse (.obj [("error", .str e)]) 500, tr1 ++ sub⟩
                | (.ok submittedTxid, sub) =>
                  withCalls (tr1 ++ sub) (finalCall w (endpointBase ++ "/complete") "POST"
                    (some (.obj [("txid", .str submittedTxid)])))
            else
              withCalls tr1 (finalCall w (endpointBase ++ "/complete") "POST" none)
      else
        finalCall w (endpointBase ++ "/complete") "POST" none
    else if action = "cancel" ∨ action = "payment_cancel" ∨ action = "a2u_cancel" then
      finalCall w (endpointBase ++ "/cancel") "POST" none
    else if action = "get" ∨ action = "payment_get" ∨ action = "a2u_get" then
      finalCall w endpointBase "GET" none
    else
      ⟨jsonResponse (.obj [("error", .str "Invalid action")]) 400, []⟩

/-- The create-payment POST ending a2u_create (index.ts:266-281). -/
def a2uCreatePost (w : World) (body : Json) : Outcome :=
  let bodyStr := stringify body
  let tr1 := [Call.fetch paymentsUrl "POST" (some bodyStr)]
  match w.fetch paymentsUrl "POST" (some bodyStr) with
  | .error e => ⟨jsonResponse (.obj [("error", .str e)]) 500, tr1⟩
  | .ok piResponse =>
    let data := parseJson piResponse.body
    if !piResponse.ok then
      let fallback := "Pi A2U create failed (status " ++ toString piResponse.status ++ ")"
      ⟨jsonResponse (.obj [("error", .str (getPiErrorMessage data fallback)),
        ("status", .num (piResponse.status : ℚ)), ("data", data)]) 400, tr1⟩
    else
      ⟨jsonResponse (.obj [("success", .bool true), ("data", data)]) 200, tr1⟩

/-- The a2u_create action (index.ts:213-282): payload validation, the
incomplete-payment check, then creation. -/
def handleA2uCreate (w : World) (payment : Option Json) : Outcome :=
  let payloadOk :=
    match payment with
    | some (.obj _) => true
    | some (.arr _) => true
    | _ => false
  if !payloadOk then ⟨jsonResponse (.obj [("error", .str "Missing payment payload")]) 400, []⟩
  else
    let body := match payment with | some j => j | none => .null
    let amount := toNumber (body.getField "amount")
    let uid := strFieldTrim (body.getField "uid")
    let memo := strFieldTrim (body.getField "memo")
    if !finPos amount then
      ⟨jsonResponse (.obj [("error", .str "Invalid payment.amount")]) 400, []⟩
    else if uid = "" then
      ⟨jsonResponse (.obj [("error", .str "Missing payment.uid")]) 400, []⟩
    else if memo = "" then
      ⟨jsonResponse (.obj [("error", .str "Missing payment.memo")]) 400, []⟩
    else
      let metadataOk :=
        match body.getField "metadata" with
        | some (.obj _) => true
        | _ => false
      if !metadataOk then
        ⟨jsonResponse (.obj [("error", .str "Missing payment.metadata object")]) 400, []⟩
      else
        let tr1 := [Call.fetch incompleteUrl "GET" none]
        match w.fetch incompleteUrl "GET" none with
        | .error e => ⟨jsonResponse (.obj [("error", .str e)]) 500, tr1⟩
        | .ok pendingResponse =>
          let pendingData := parseJson pendingResponse.body
          if pendingResponse.ok then
            let pendingList :=
              match pendingData.getField "incomplete_server_payments" with
              | some (.arr xs) => xs
              | _ => []
            match pendingList with
            | [] => withCalls tr1 (a2uCreatePost w body)
            | p0 :: _ =>
              let pendingPayment := asRecord p0
              let pendingUid := trimStr (strCoerce (pendingPayment.getField "user_uid"))
              if pendingUid ≠ "" ∧ pendingUid ≠ uid then
                ⟨jsonResponse (.obj [("error",
                  .str "Another incomplete A2U payout exists. Complete/cancel it before creating a new payout.")]) 409, tr1⟩
              else
                ⟨jsonResponse (.obj [("success", .bool true), ("data", pendingPayment),
                  ("reusedIncomplete", .bool true)]) 200, tr1⟩
          else withCalls tr1 (a2uCreatePost w body)

/-- The auth_verify action (index.ts:133-161); it runs before the session
gate, so its trace never contains a getUser call. -/
def handleAuthVerify (w : World) (accessToken : Option Json) : Outcome :=
  match nonEmptyStrField accessToken with
  | none => ⟨jsonResponse (.obj [("error", .str "Missing accessToken")]) 400, []⟩
  | some _ =>
    let tr1 := [Call.fetch piMeUrl "GET" none]
    match w.fetch piMeUrl "GET" none with
    | .error e => ⟨jsonResponse (.obj [("error", .str e)]) 500, tr1⟩
    | .ok piResponse =>
      let data := parseJson piResponse.body
      if !piResponse.ok then
        ⟨jsonResponse (.obj [("error", .str "Pi auth verification failed"),
          ("status", .num (piResponse.status : ℚ)), ("data", data)]) 400, tr1⟩
      else
        let uid :=
          match data.getField "uid" with
          | some (.str s) => if s = "" then none else some s
          | _ => none
        let username :=
          match data.getField "username" with
          | some (.str s) => Json.str s
          | _ => Json.null
        match uid with
        | none => ⟨jsonResponse (.obj [("error", .str "Pi auth response missing uid")]) 400, tr1⟩
        | some u =>
          ⟨jsonResponse (.obj [("success", .bool true),
            ("data", .obj [("uid", .str u), ("username", username)])]) 200, tr1⟩

/-- The ad_verify action (index.ts:173-195). -/
def handleAdVerify (w : World) (adId : Option Json) : Outcome :=
  match nonEmptyStrField adId with
  | none => ⟨jsonResponse (.obj [("error", .str "Missing adId")]) 400, []⟩
  | some adIdStr =>
    let tr1 := [Call.fetch (adStatusUrl adIdStr) "GET" none]
    match w.fetch (adStatusUrl adIdStr) "GET" none with
    | .error e => ⟨jsonResponse (.obj [("error", .str e)]) 500, tr1⟩
    | .ok piResponse =>
      let data := parseJson piResponse.body
      if !piResponse.ok then
        ⟨jsonResponse (.obj [("error", .str "Pi ad verification failed"),
          ("status", .num (piResponse.status : ℚ)), ("data", data)]) 400, tr1⟩
      else
        let mediatorAckStatus :=
          match data.getField "mediator_ack_status" with
          | some (.str s) => some s
          | _ => none
        let rewarded := mediatorAckStatus == some "granted"
        ⟨jsonResponse (.obj [("success", .bool true), ("rewarded", .bool rewarded),
          ("data", data)]) 200, tr1⟩

/-- The a2u_config_status action (index.ts:197-211): reports which secrets are
present, without an upstream call. -/
def handleConfigStatus (w : World) : Outcome :=
  ⟨jsonResponse (.obj [("success", .bool true),
    ("data", .obj [
      ("hasApiKey", .bool (envTruthy w "PI_API_KEY")),
      ("hasValidationKey", .bool (envTruthy w "PI_VALIDATION_KEY")),
      ("hasWalletPrivateSeed", .bool (envTruthy w "PI_WALLET_PRIVATE_SEED")),
      ("hasWalletPublicAddress", .bool (envTruthy w "PI_WALLET_PUBLIC_ADDRESS"))])]) 200, []⟩

/-- The a2u_incomplete action (index.ts:284-298). -/
def handleA2uIncomplete (w : World) : Outcome :=
  let tr1 := [Call.fetch incompleteUrl "GET" none]
  match w.fetch incompleteUrl "GET" none with
  | .error e => ⟨jsonResponse (.obj [("error", .str e)]) 500, tr1⟩
  | .ok piResponse =>
    let data := parseJson piResponse.body
    if !piResponse.ok then
      ⟨jsonResponse (.obj [("error", .str "Pi incomplete payments fetch failed"),
        ("status", .num (piResponse.status : ℚ)), ("data", data)]) 400, tr1⟩
    else
      ⟨jsonResponse (.obj [("success", .bool true), ("data", data)]) 200, tr1⟩

/-- Source serve handler (index.ts:119-377): pre-flight, body destructuring,
the auth_verify special case, the session gate, the PI_API_KEY gate, then the
action dispatch. The Supabase client is represented by the getUser oracle; a
null request body models the TypeError thrown by destructuring null, caught by
the outer try as a 500. -/
def serve (w : World) (req : Req) : Outcome :=
  if req.method = "OPTIONS" then ⟨⟨200, .str "ok"⟩, []⟩
  else if (req.bodyJson).isNull then
    ⟨jsonResponse (.obj [("error", .str "Cannot destructure request body null")]) 500, []⟩
  else
    let bj := req.bodyJson
    match nonEmptyStrField (bj.getField "action") with
      | none => ⟨jsonResponse (.obj [("error", .str "Missing action")]) 400, []⟩
      | some action =>
        if action = "auth_verify" then handleAuthVerify w (bj.getField "accessToken")
        else
          match req.authHeader with
          | none => ⟨jsonResponse (.obj [("error", .str "Missing auth token")]) 401, []⟩
          | some authHeader =>
            if !startsWithStr authHeader "Bearer " then
              ⟨jsonResponse (.obj [("error", .str "Missing auth token")]) 401, []⟩
            else
              let token := replaceFirst authHeader "Bearer " ""
              let tr0 := [Call.getUser token]
              let gu := w.getUser token
              if gu.error.isSome ∨ gu.user.isNone then
                ⟨jsonResponse (.obj [("error", .str "Unauthorized")]) 401, tr0⟩
              else
                match w.env "PI_API_KEY" with
                | none => ⟨jsonResponse (.obj [("error", .str "PI_API_KEY is not configured")]) 500, tr0⟩
                | some apiKey =>
                  if apiKey = "" then
                    ⟨jsonResponse (.obj [("error", .str "PI_API_KEY is not configured")]) 500, tr0⟩
                  else if action = "ad_verify" then withCalls tr0 (handleAdVerify w (bj.getField "adId"))
                  else if action = "a2u_config_status" then withCalls tr0 (handleConfigStatus w)
                  else if action = "a2u_create" then withCalls tr0 (handleA2uCreate w (bj.getField "payment"))
                  else if action = "a2u_incomplete" then withCalls tr0 (handleA2uIncomplete w)
                  else withCalls tr0 (handlePaymentAction w action (bj.getField "paymentId") (bj.getField "txid"))

/-- A request body carrying a valid action is not the null value. -/
theorem action_isNull_false {bj : Json} {act : String}
    (h : nonEmptyStrField (bj.getField "action") = some act) : bj.isNull = false := by
  cases bj <;> simp_all [nonEmptyStrField, Json.getField, Json.isNull]

/-- Under a non-pre-flight method, a valid non-auth_verify action, a Bearer
session that verifies, and a configured API key, serve reaches the action
dispatch with only the getUser call traced so far. -/
theorem serve_auth (w : World) (m hdr : String) (bj : Json) (act u k : String)
    (hm : m ≠ "OPTIONS")
    (hact : nonEmptyStrField (bj.getField "action") = some act)
    (hav : act ≠ "auth_verify")
    (hbearer : startsWithStr hdr "Bearer " = true)
    (hgu : w.getUser (replaceFirst hdr "Bearer " "") = ⟨some u, none⟩)
    (hkey : w.env "PI_API_KEY" = some k) (hk : k ≠ "") :
    serve w ⟨m, some hdr, bj⟩ =
      (if act = "ad_verify" then
        withCalls [Call.getUser (replaceFirst hdr "Bearer " "")] (handleAdVerify w (bj.getField "adId"))
       else if act = "a2u_config_status" then
        withCalls [Call.getUser (replaceFirst hdr "Bearer " "")] (handleConfigStatus w)
       else if act = "a2u_create" then
        withCalls [Call.getUser (replaceFirst hdr "Bearer " "")] (handleA2uCreate w (bj.getField "payment"))
       else if act = "a2u_incomplete" then
        withCalls [Call.getUser (replaceFirst hdr "Bearer " "")] (handleA2uIncomplete w)
       else
        withCalls [Call.getUser (replaceFirst hdr "Bearer " "")]
          (handlePaymentAction w act (bj.getField "paymentId") (bj.getField "txid"))) := by
  have hnn : bj.isNull = false := action_isNull_false hact
  unfold serve
  simp only [hm, hnn, hact, hbearer, hgu, hkey, if_neg, Bool.not_true, Bool.not_false,
    ite_false, ite_true, if_false, if_true, Option.isSome_none, Option.isNone_some,
    or_self, Bool.false_eq_true, reduceIte, reduceCtorEq, hav, hk]

/-- Every call the ledger client makes is a ledger (Horizon) operation. -/
theorem submitLedger_calls_ledger (w : World) (u sa np pid ta : String) (an : JNum) (s : String) :
    ∀ c ∈ (submitLedger w u sa np pid ta an s).2, isLedgerCall c = true := by
  intro c hc
  unfold submitLedger at hc
  rcases h1 : w.loadAccount u sa with e1 | acct <;> simp only [h1] at hc
  · simp at hc; subst hc; rfl
  · rcases h2 : w.fetchBaseFee u with e2 | fee <;> simp only [h2] at hc
    · simp at hc; rcases hc with rfl | rfl <;> rfl
    · rcases h3 : w.submitTx u ⟨⟨acct, toString fee, np, pid, ⟨ta, toFixedAmount an⟩, 180⟩, s⟩
        with e3 | sub <;> simp only [h3] at hc
      · simp at hc; rcases hc with rfl | rfl | rfl <;> rfl
      · split at hc <;> (simp at hc; rcases hc with rfl | rfl | rfl <;> rfl)

/-- A successful ledger-client run traces exactly the account load, the fee
fetch, and the transaction submission, in that order. -/
theorem submitLedger_ok_shape (w : World) (u sa np pid ta : String) (an : JNum) (s h : String)
    (hok : (submitLedger w u sa np pid ta an s).1 = Except.ok h) :
    ∃ stx, (submitLedger w u sa np pid ta an s).2 =
      [Call.loadAccount u sa, Call.fetchBaseFee u, Call.submitTx u stx] := by
  unfold submitLedger at *
  rcases h1 : w.loadAccount u sa with e1 | acct <;> simp only [h1] at hok ⊢
  · simp at hok
  · rcases h2 : w.fetchBaseFee u with e2 | fee <;> simp only [h2] at hok ⊢
    · simp at hok
    · rcases h3 : w.submitTx u ⟨⟨acct, toString fee, np, pid, ⟨ta, toFixedAmount an⟩, 180⟩, s⟩
        with e3 | sub <;> simp only [h3] at hok ⊢
      · simp at hok
      · by_cases h4 : trimStr (strCoerce (orVal (sub.getField "hash") (sub.getField "id"))) = ""
        · simp only [h4, if_pos] at hok; simp at hok
        · simp only [if_neg h4] at hok ⊢; exact ⟨_, rfl⟩

/-- submitA2UTx either stops during validation with an empty trace, or runs
the ledger client on some derived arguments. -/
theorem submitA2UTx_shape (w : World) (p : Json) (s e : String) :
    (∃ msg, submitA2UTx w p s e = (.error msg, [])) ∨
    (∃ u sa np pid ta an, submitA2UTx w p s e = submitLedger w u sa np pid ta an s) := by
  unfold submitA2UTx
  by_cases h1 : trimStr (strCoerce (p.getField "identifier")) = ""
  · exact Or.inl ⟨"Missing payment identifier for blockchain submission", by simp [h1]⟩
  by_cases h2 : trimStr (strCoerce (p.getField "to_address")) = ""
  · exact Or.inl ⟨"Missing payment recipient address", by simp [h1, h2]⟩
  by_cases h3 : trimStr (strCoerce (p.getField "from_address")) = ""
  · exact Or.inl ⟨"Missing payment sender address", by simp [h1, h2, h3]⟩
  by_cases h4 : finPos (toNumber (p.getField "amount")) = true
  case neg => exact Or.inl ⟨"Invalid payment amount", by simp [h1, h2, h3, h4]⟩
  rcases h5 : w.fromSecret s with e5 | signer
  · exact Or.inl ⟨e5, by simp [h1, h2, h3, h4, h5]⟩
  by_cases h6 : trimStr e ≠ "" ∧ signer ≠ trimStr e
  · exact Or.inl ⟨"PI_WALLET_PRIVATE_SEED does not match PI_WALLET_PUBLIC_ADDRESS",
      by simp [h1, h2, h3, h4, h5, h6]⟩
  by_cases h7 : trimStr (strCoerce (p.getField "from_address")) ≠ signer
  · exact Or.inl ⟨"Payment source address does not match the configured wallet seed",
      by simp [h1, h2, h3, h4, h5, h6, h7]⟩
  · refine Or.inr
      ⟨if (if trimStr (strCoerce (p.getField "network")) = "" then "Pi Testnet"
           else trimStr (strCoerce (p.getField "network"))) = "Pi Network" then
         "https://api.mainnet.minepi.com" else "https://api.testnet.minepi.com",
       signer,
       if trimStr (strCoerce (p.getField "network")) = "" then "Pi Testnet"
       else trimStr (strCoerce (p.getField "network")),
       trimStr (strCoerce (p.getField "identifier")),
       trimStr (strCoerce (p.getField "to_address")),
       toNumber (p.getField "amount"), ?_⟩
    simp [h1, h2, h3, h4, h5, h6, h7]

/-- Every call submitA2UTx makes is a ledger (Horizon) operation; in
particular it performs no HTTP fetch. -/
theorem submitA2UTx_calls_ledger (w : World) (p : Json) (s e : String) :
    ∀ c ∈ (submitA2UTx w p s e).2, isLedgerCall c = true := by
  intro c hc
  rcases submitA2UTx_shape w p s e with ⟨msg, hs⟩ | ⟨u, sa, np, pid, ta, an, hs⟩
  · rw [hs] at hc; simp at hc
  · rw [hs] at hc; exact submitLedger_calls_ledger w u sa np pid ta an s c hc

/-- A successful settlement submission has a submitTransaction call in its
trace. -/
theorem submitA2UTx_ok_mem_submit (w : World) (p : Json) (s e h : String)
    (hok : (submitA2UTx w p s e).1 = Except.ok h) :
    ∃ u stx, Call.submitTx u stx ∈ (submitA2UTx w p s e).2 := by
  rcases submitA2UTx_shape w p s e with ⟨msg, hs⟩ | ⟨u, sa, np, pid, ta, an, hs⟩
  · rw [hs] at hok; simp at hok
  · rw [hs] at hok ⊢
    obtain ⟨stx, h2⟩ := submitLedger_ok_shape w u sa np pid ta an s h hok
    exact ⟨u, stx, by rw [h2]; simp⟩

/-- C5: in submitA2UTx, once the payment record's field checks pass and the
keypair derives, (a) a configured expected public address that differs from
the derived signer address stops the submitter with the configured-address
mismatch error, and (b) a declared source address differing from the derived
signer address stops it with the source-address mismatch error; in both cases
the trace is empty, so no account load, no fee fetch, and no transaction
build, sign or submission has happened. -/
theorem submitA2UTx_address_guards (w : World) (payment : Json) (seed expectedPub signer : String)
    (hpid : trimStr (strCoerce (payment.getField "identifier")) ≠ "")
    (hto : trimStr (strCoerce (payment.getField "to_address")) ≠ "")
    (hfrom : trimStr (strCoerce (payment.getField "from_address")) ≠ "")
    (hamt : finPos (toNumber (payment.getField "amount")) = true)
    (hks : w.fromSecret seed = .ok signer) :
    (trimStr expectedPub ≠ "" → signer ≠ trimStr expectedPub →
      submitA2UTx w payment seed expectedPub =
        (.error "PI_WALLET_PRIVATE_SEED does not match PI_WALLET_PUBLIC_ADDRESS", [])) ∧
    ((trimStr expectedPub = "" ∨ signer = trimStr expectedPub) →
      trimStr (strCoerce (payment.getField "from_address")) ≠ signer →
      submitA2UTx w payment seed expectedPub =
        (.error "Payment source address does not match the configured wallet seed", [])) := by
  constructor
  · intro h1 h2
    unfold submitA2UTx
    simp [hpid, hto, hfrom, hamt, hks, h1, h2]
  · intro h1 h2
    unfold submitA2UTx
    rcases h1 with h1 | h1
    · simp [hpid, hto, hfrom, hamt, hks, h1, h2]
    · simp [hpid, hto, hfrom, hamt, hks, h1, h2]
      intro hcon
      exact absurd (h1.symm ▸ hcon) h2

def payment5 : Json :=
  Json.obj [("identifier", Json.str "P1"), ("to_address", Json.str "GDEST"),
    ("from_address", Json.str "GFROM"), ("amount", Json.num 5)]

def world5 : World :=
  ⟨fun _ => none, fun _ => ⟨none, none⟩, fun _ _ _ => .error "no fetch",
   fun s => .ok ("G" ++ s), fun _ _ => .error "no ledger", fun _ => .error "no ledger",
   fun _ _ => .error "no ledger"⟩

/-- C5 witness: both address guards fire on concrete inputs. -/
theorem submitA2UTx_address_guards_witness :
    submitA2UTx world5 payment5 "S1" "GEXP" =
      (.error "PI_WALLET_PRIVATE_SEED does not match PI_WALLET_PUBLIC_ADDRESS", []) ∧
    submitA2UTx world5 payment5 "S1" "" =
      (.error "Payment source address does not match the configured wallet seed", []) :=
  ⟨(submitA2UTx_address_guards world5 payment5 "S1" "GEXP" "GS1"
      (by decide) (by decide) (by decide) (by decide) rfl).1 (by decide) (by decide),
   (submitA2UTx_address_guards world5 payment5 "S1" "" "GS1"
      (by decide) (by decide) (by decide) (by decide) rfl).2 (Or.inl rfl) (by decide)⟩

/-- C8 counterexample: on the empty body the parse step does not wrap the raw
text -- JSON.parse fails on "", yet parseJson returns the empty object, which
is not the wrapped form the claim requires for every string. -/
theorem parseJson_empty_counterexample :
    jsonParse "" = none ∧ parseJson "" = Json.obj [] ∧
      Json.obj [] ≠ Json.obj [("raw", Json.str "")] :=
  ⟨rfl, rfl, by simp⟩

/-- First string in the list that is nonempty, else the fallback. -/
def firstNonEmpty : List String → String → String
  | [], fb => fb
  | s :: rest, fb => if s ≠ "" then s else firstNonEmpty rest fb

/-- The error/message field one level under a nested data object. -/
def nestedDataField (payload : Json) (k : String) : String :=
  match payload.getField "data" with
  | some (.obj fs) => strTrimOf (lookupLast fs k)
  | _ => ""

/-- Modelled from the spec words (§4.2): the extracted message is the first
present (nonempty-after-trim string) among top-level error, top-level message,
data.error, data.message, else the fallback. -/
def piErrorMessageSpec (payload : Json) (fallback : String) : String :=
  firstNonEmpty
    [strTrimOf (payload.getField "error"), strTrimOf (payload.getField "message"),
     nestedDataField payload "error", nestedDataField payload "message"] fallback

/-- C8 (amended): the parse step returns the parsed JSON on success, wraps
nonempty unparseable text as a raw-keyed object, and maps the empty body to
the empty object; the extracted error message is the first present among
error, message, data.error, data.message, else the fallback; and on the
concrete scenario the raw body "not json" with fallback "X failed" gives the
wrapped data and the fallback message. -/
theorem parseJson_and_error_message (raw : String) (payload : Json) (fallback : String) :
    (raw ≠ "" → jsonParse raw = none → parseJson raw = Json.obj [("raw", Json.str raw)]) ∧
    (∀ j, raw ≠ "" → jsonParse raw = some j → parseJson raw = j) ∧
    parseJson "" = Json.obj [] ∧
    getPiErrorMessage payload fallback = piErrorMessageSpec payload fallback ∧
    parseJson "not json" = Json.obj [("raw", Json.str "not json")] ∧
    getPiErrorMessage (Json.obj [("raw", Json.str "not json")]) "X failed" = "X failed" := by
  refine ⟨fun hr hp => by simp [parseJson, hr, hp], fun j hr hp => by simp [parseJson, hr, hp],
    rfl, ?_, rfl, by decide⟩
  unfold getPiErrorMessage piErrorMessageSpec nestedDataField
  rcases hd : payload.getField "data" with _ | d
  · simp only [hd]
    split_ifs <;> simp_all [firstNonEmpty]
  · cases d <;> simp only [hd] <;> split_ifs <;> simp_all [firstNonEmpty]

/-- C8 witness: the theorem applied at the scenario input, with its
implications discharged on both the failing and the succeeding parse. -/
theorem parseJson_and_error_message_witness :
    parseJson "not json" = Json.obj [("raw", Json.str "not json")] ∧
    parseJson "true" = Json.bool true := by
  refine ⟨(parseJson_and_error_message "not json" (Json.obj []) "f").1 (by decide) rfl, ?_⟩
  exact (parseJson_and_error_message "true" (Json.obj []) "f").2.1 (Json.bool true) (by decide) rfl

/-- The final platform call always traces exactly one fetch, to its endpoint,
whatever the response. -/
theorem finalCall_calls (w : World) (ep me : String) (b : Option Json) :
    (finalCall w ep me b).calls = [Call.fetch ep me (b.map stringify)] := by
  unfold finalCall
  rcases h : w.fetch ep me (b.map stringify) with e | r
  · simp [h]
  · simp [h]; split <;> rfl

/-- The create POST always traces exactly one fetch, to the payments
endpoint, whatever the response. -/
theorem a2uCreatePost_calls (w : World) (body : Json) :
    (a2uCreatePost w body).calls = [Call.fetch paymentsUrl "POST" (some (stringify body))] := by
  unfold a2uCreatePost
  rcases h : w.fetch paymentsUrl "POST" (some (stringify body)) with e | r
  · simp [h]
  · simp [h]; split <;> rfl

/-- A ledger call is not a fetch to any url. -/
theorem isLedgerCall_not_fetchTo (c : Call) (url : String) (h : isLedgerCall c = true) :
    isFetchTo url c = false := by
  cases c <;> simp_all [isLedgerCall, isFetchTo]

/-- A string never equals itself extended by the nonempty "/complete". -/
theorem ne_self_append_complete (s : String) : s ≠ s ++ "/complete" := by
  intro h
  have h2 := congrArg String.length h
  rw [String.length_append] at h2
  have h3 : "/complete".length = 9 := rfl
  rw [h3] at h2
  omega

/-- C2: an authenticated a2u_create with a valid payload, where the upstream
incomplete-payments listing succeeds and the listed entry carries a nonempty
user_uid different from the request's uid, fails 409 Conflict; the only
external calls are the session check and the listing fetch, so no create POST
is issued. (The upstream allows one in-flight A2U payment, so the entry the
handler inspects -- the first -- is the competing payment.) -/
theorem a2u_create_conflict (w : World) (m hdr u k : String) (bj : Json)
    (pfs : List (String × Json)) (pr : HttpResp) (p0 : Json) (rest : List Json) (pu : String)
    (hm : m ≠ "OPTIONS")
    (hact : nonEmptyStrField (bj.getField "action") = some "a2u_create")
    (hbearer : startsWithStr hdr "Bearer " = true)
    (hgu : w.getUser (replaceFirst hdr "Bearer " "") = ⟨some u, none⟩)
    (hkey : w.env "PI_API_KEY" = some k) (hk : k ≠ "")
    (hpay : bj.getField "payment" = some (.obj pfs))
    (hamt : finPos (toNumber (Json.getField (.obj pfs) "amount")) = true)
    (huid : strFieldTrim (Json.getField (.obj pfs) "uid") ≠ "")
    (hmemo : strFieldTrim (Json.getField (.obj pfs) "memo") ≠ "")
    (hmeta : ∃ ms, Json.getField (.obj pfs) "metadata" = some (.obj ms))
    (hpend : w.fetch incompleteUrl "GET" none = .ok pr)
    (hprok : pr.ok = true)
    (hlist : (parseJson pr.body).getField "incomplete_server_payments" = some (.arr (p0 :: rest)))
    (hpu : trimStr (strCoerce ((asRecord p0).getField "user_uid")) = pu)
    (hpune : pu ≠ "")
    (hpudiff : pu ≠ strFieldTrim (Json.getField (.obj pfs) "uid")) :
    serve w ⟨m, some hdr, bj⟩ =
      ⟨jsonResponse (.obj [("error",
          .str "Another incomplete A2U payout exists. Complete/cancel it before creating a new payout.")]) 409,
        [Call.getUser (replaceFirst hdr "Bearer " ""), Call.fetch incompleteUrl "GET" none]⟩ ∧
    ∀ c ∈ [Call.getUser (replaceFirst hdr "Bearer " ""), Call.fetch incompleteUrl "GET" none],
      isFetchTo paymentsUrl c = false := by
  rcases hmeta with ⟨ms, hmeta⟩
  rw [serve_auth w m hdr bj "a2u_create" u k hm hact (by decide) hbearer hgu hkey hk]
  constructor
  · simp only [reduceIte, String.reduceEq, if_false, if_true, ite_false, ite_true]
    unfold handleA2uCreate withCalls
    simp [hpay, hamt, huid, hmemo, hmeta, hpend, hprok, hlist, hpu, hpune, hpudiff]
  · intro c hc
    rcases List.mem_cons.mp hc with rfl | hc
    · rfl
    · rcases List.mem_singleton.mp hc with rfl
      decide

def bodyC2 : Json :=
  Json.obj [("action", Json.str "a2u_create"),
    ("payment", Json.obj [("amount", Json.num 5), ("uid", Json.str "u1"),
      ("memo", Json.str "payout"), ("metadata", Json.obj [("note", Json.str "x")])])]

def pendingBodyOther : String :=
  "\x7b\"incomplete_server_payments\":[\x7b\"user_uid\":\"u2\",\"identifier\":\"P7\"\x7d]\x7d"

def worldC2 : World :=
  ⟨fun n => if n = "PI_API_KEY" then some "k1" else none,
   fun _ => ⟨some "user-1", none⟩,
   fun url _ _ => if url = incompleteUrl then .ok ⟨true, 200, pendingBodyOther⟩
     else .error "unexpected fetch",
   fun _ => .error "no keypair", fun _ _ => .error "no ledger", fun _ => .error "no ledger",
   fun _ _ => .error "no ledger"⟩

/-- C2 witness: user u1 attempts a2u_create while u2 owns the incomplete
payment; the call 409s after exactly the session check and the listing
fetch. -/
theorem a2u_create_conflict_witness :
    serve worldC2 ⟨"POST", some "Bearer tok", bodyC2⟩ =
      ⟨jsonResponse (.obj [("error",
          .str "Another incomplete A2U payout exists. Complete/cancel it before creating a new payout.")]) 409,
        [Call.getUser "tok", Call.fetch incompleteUrl "GET" none]⟩ ∧
    ∀ c ∈ [Call.getUser "tok", Call.fetch incompleteUrl "GET" none],
      isFetchTo paymentsUrl c = false :=
  a2u_create_conflict worldC2 "POST" "Bearer tok" "user-1" "k1" bodyC2
    [("amount", Json.num 5), ("uid", Json.str "u1"), ("memo", Json.str "payout"),
      ("metadata", Json.obj [("note", Json.str "x")])]
    ⟨true, 200, pendingBodyOther⟩
    (Json.obj [("user_uid", Json.str "u2"), ("identifier", Json.str "P7")]) [] "u2"
    (by decide) rfl (by decide) rfl rfl (by decide) rfl (by decide) (by decide) (by decide)
    ⟨[("note", Json.str "x")], rfl⟩ rfl rfl rfl (by decide) (by decide) (by decide)

/-- C3: a2u_create is idempotent per user. (a) If the incomplete-payments
listing holds a payment whose user_uid equals the request's uid, the handler
returns that payment with reusedIncomplete true and issues no create POST.
(b) Two immediately successive calls for the same user -- the first against a
world with no incomplete payment whose create succeeds, the second against
the world in which the listing now returns the payment the first call
created -- give the created payment without a reusedIncomplete key on the
first call and the same payment with reusedIncomplete true on the second, so
both carry the identical payment record and hence identifier. -/
theorem a2u_create_idempotent (w w1 w2 : World) (m hdr u k : String) (bj : Json)
    (pfs : List (String × Json)) (pr : HttpResp) (p0 : Json) (rest : List Json)
    (pr1 : HttpResp) (cr : HttpResp) (dfs : List (String × Json)) (pr2 : HttpResp)
    (hm : m ≠ "OPTIONS")
    (hact : nonEmptyStrField (bj.getField "action") = some "a2u_create")
    (hbearer : startsWithStr hdr "Bearer " = true)
    (hpay : bj.getField "payment" = some (.obj pfs))
    (hamt : finPos (toNumber (Json.getField (.obj pfs) "amount")) = true)
    (huid : strFieldTrim (Json.getField (.obj pfs) "uid") ≠ "")
    (hmemo : strFieldTrim (Json.getField (.obj pfs) "memo") ≠ "")
    (hmeta : ∃ ms, Json.getField (.obj pfs) "metadata" = some (.obj ms))
    -- part (a): a world whose listing holds an incomplete payment of the same user
    (hgu : w.getUser (replaceFirst hdr "Bearer " "") = ⟨some u, none⟩)
    (hkey : w.env "PI_API_KEY" = some k) (hk : k ≠ "")
    (hpend : w.fetch incompleteUrl "GET" none = .ok pr)
    (hprok : pr.ok = true)
    (hlist : (parseJson pr.body).getField "incomplete_server_payments" = some (.arr (p0 :: rest)))
    (hpu : trimStr (strCoerce ((asRecord p0).getField "user_uid")) =
      strFieldTrim (Json.getField (.obj pfs) "uid"))
    -- part (b): the two-call scenario
    (hgu1 : w1.getUser (replaceFirst hdr "Bearer " "") = ⟨some u, none⟩)
    (hkey1 : w1.env "PI_API_KEY" = some k)
    (hpend1 : w1.fetch incompleteUrl "GET" none = .ok pr1)
    (hprok1 : pr1.ok = true)
    (hlist1 : (parseJson pr1.body).getField "incomplete_server_payments" = some (.arr []))
    (hcr : w1.fetch paymentsUrl "POST" (some (stringify (.obj pfs))) = .ok cr)
    (hcrok : cr.ok = true)
    (hd1 : parseJson cr.body = .obj dfs)
    (hgu2 : w2.getUser (replaceFirst hdr "Bearer " "") = ⟨some u, none⟩)
    (hkey2 : w2.env "PI_API_KEY" = some k)
    (hpend2 : w2.fetch incompleteUrl "GET" none = .ok pr2)
    (hprok2 : pr2.ok = true)
    (hlist2 : (parseJson pr2.body).getField "incomplete_server_payments" =
      some (.arr [.obj dfs]))
    (hd1uid : trimStr (strCoerce (Json.getField (.obj dfs) "user_uid")) =
      strFieldTrim (Json.getField (.obj pfs) "uid")) :
    serve w ⟨m, some hdr, bj⟩ =
      ⟨jsonResponse (.obj [("success", .bool true), ("data", asRecord p0),
          ("reusedIncomplete", .bool true)]) 200,
        [Call.getUser (replaceFirst hdr "Bearer " ""), Call.fetch incompleteUrl "GET" none]⟩ ∧
    serve w1 ⟨m, some hdr, bj⟩ =
      ⟨jsonResponse (.obj [("success", .bool true), ("data", .obj dfs)]) 200,
        [Call.getUser (replaceFirst hdr "Bearer " ""), Call.fetch incompleteUrl "GET" none,
         Call.fetch paymentsUrl "POST" (some (stringify (.obj pfs)))]⟩ ∧
    serve w2 ⟨m, some hdr, bj⟩ =
      ⟨jsonResponse (.obj [("success", .bool true), ("data", .obj dfs),
          ("reusedIncomplete", .bool true)]) 200,
        [Call.getUser (replaceFirst hdr "Bearer " ""), Call.fetch incompleteUrl "GET" none]⟩ := by
  rcases hmeta with ⟨ms, hmeta⟩
  refine ⟨?_, ?_, ?_⟩
  · rw [serve_auth w m hdr bj "a2u_create" u k hm hact (by decide) hbearer hgu hkey hk]
    simp only [reduceIte, String.reduceEq, if_false, if_true, ite_false, ite_true]
    unfold handleA2uCreate withCalls
    simp [hpay, hamt, huid, hmemo, hmeta, hpend, hprok, hlist, hpu]
  · rw [serve_auth w1 m hdr bj "a2u_create" u k hm hact (by decide) hbearer hgu1 hkey1 hk]
    simp only [reduceIte, String.reduceEq, if_false, if_true, ite_false, ite_true]
    unfold handleA2uCreate withCalls a2uCreatePost
    simp [hpay, hamt, huid, hmemo, hmeta, hpend1, hprok1, hlist1, hcr, hcrok, hd1]
  · rw [serve_auth w2 m hdr bj "a2u_create" u k hm hact (by decide) hbearer hgu2 hkey2 hk]
    simp only [reduceIte, String.reduceEq, if_false, if_true, ite_false, ite_true]
    unfold handleA2uCreate withCalls
    simp [hpay, hamt, huid, hmemo, hmeta, hpend2, hprok2, hlist2, hd1uid, asRecord]

def createdBody : String :=
  "\x7b\"identifier\":\"P9\",\"user_uid\":\"u1\",\"amount\":5\x7d"

def pendingBodySame : String :=
  "\x7b\"incomplete_server_payments\":[\x7b\"identifier\":\"P9\",\"user_uid\":\"u1\",\"amount\":5\x7d]\x7d"

def worldC3first : World :=
  ⟨fun n => if n = "PI_API_KEY" then some "k1" else none,
   fun _ => ⟨some "user-1", none⟩,
   fun url _ _ =>
     if url = incompleteUrl then .ok ⟨true, 200, "\x7b\"incomplete_server_payments\":[]\x7d"⟩
     else if url = paymentsUrl then .ok ⟨true, 200, createdBody⟩
     else .error "unexpected fetch",
   fun _ => .error "no keypair", fun _ _ => .error "no ledger", fun _ => .error "no ledger",
   fun _ _ => .error "no ledger"⟩

def worldC3second : World :=
  ⟨fun n => if n = "PI_API_KEY" then some "k1" else none,
   fun _ => ⟨some "user-1", none⟩,
   fun url _ _ =>
     if url = incompleteUrl then .ok ⟨true, 200, pendingBodySame⟩
     else .error "unexpected fetch",
   fun _ => .error "no keypair", fun _ _ => .error "no ledger", fun _ => .error "no ledger",
   fun _ _ => .error "no ledger"⟩

/-- C3 witness: the created payment P9 for u1 is returned by the first call
and reused (reusedIncomplete true) by the immediately following one, with the
identical payment record. -/
theorem a2u_create_idempotent_witness :
    serve worldC3second ⟨"POST", some "Bearer tok", bodyC2⟩ =
      ⟨jsonResponse (.obj [("success", .bool true),
          ("data", .obj [("identifier", Json.str "P9"), ("user_uid", Json.str "u1"),
            ("amount", Json.num 5)]), ("reusedIncomplete", .bool true)]) 200,
        [Call.getUser "tok", Call.fetch incompleteUrl "GET" none]⟩ ∧
    serve worldC3first ⟨"POST", some "Bearer tok", bodyC2⟩ =
      ⟨jsonResponse (.obj [("success", .bool true),
          ("data", .obj [("identifier", Json.str "P9"), ("user_uid", Json.str "u1"),
            ("amount", Json.num 5)])]) 200,
        [Call.getUser "tok", Call.fetch incompleteUrl "GET" none,
         Call.fetch paymentsUrl "POST" (some (stringify (.obj [("amount", Json.num 5),
           ("uid", Json.str "u1"), ("memo", Json.str "payout"),
           ("metadata", Json.obj [("note", Json.str "x")])])))]⟩ := by
  have h := a2u_create_idempotent worldC3second worldC3first worldC3second
    "POST" "Bearer tok" "user-1" "k1" bodyC2
    [("amount", Json.num 5), ("uid", Json.str "u1"), ("memo", Json.str "payout"),
      ("metadata", Json.obj [("note", Json.str "x")])]
    ⟨true, 200, pendingBodySame⟩
    (Json.obj [("identifier", Json.str "P9"), ("user_uid", Json.str "u1"), ("amount", Json.num 5)])
    [] ⟨true, 200, "\x7b\"incomplete_server_payments\":[]\x7d"⟩ ⟨true, 200, createdBody⟩
    [("identifier", Json.str "P9"), ("user_uid", Json.str "u1"), ("amount", Json.num 5)]
    ⟨true, 200, pendingBodySame⟩
    (by decide) rfl (by decide) rfl (by decide) (by decide) (by decide)
    ⟨[("note", Json.str "x")], rfl⟩
    rfl rfl (by decide) rfl rfl rfl rfl
    rfl rfl rfl rfl rfl rfl rfl rfl
    rfl rfl rfl rfl rfl rfl
  exact ⟨h.2.2, h.2.1⟩

/-- With any of the four payload defects, a2u_create stops in validation: 400
and not a single call of its own. -/
theorem handleA2uCreate_invalid (w : World) (pfs : List (String × Json))
    (hbad : finPos (toNumber (Json.getField (.obj pfs) "amount")) = false ∨
      strFieldTrim (Json.getField (.obj pfs) "uid") = "" ∨
      strFieldTrim (Json.getField (.obj pfs) "memo") = "" ∨
      (match Json.getField (.obj pfs) "metadata" with
       | some (Json.obj _) => true
       | _ => false) = false) :
    (handleA2uCreate w (some (.obj pfs))).resp.status = 400 ∧
    (handleA2uCreate w (some (.obj pfs))).calls = [] := by
  unfold handleA2uCreate
  by_cases h1 : finPos (toNumber (Json.getField (.obj pfs) "amount")) = true
  case neg => simp [h1, jsonResponse]
  by_cases h2 : strFieldTrim (Json.getField (.obj pfs) "uid") = ""
  · simp [h1, h2, jsonResponse]
  by_cases h3 : strFieldTrim (Json.getField (.obj pfs) "memo") = ""
  · simp [h1, h2, h3, jsonResponse]
  have h4 : (match Json.getField (.obj pfs) "metadata" with
       | some (Json.obj _) => true
       | _ => false) = false := by
    rcases hbad with h | h | h | h
    · rw [h] at h1; exact absurd h1 (by decide)
    · exact absurd h h2
    · exact absurd h h3
    · exact h
  rcases hmeta : Json.getField (.obj pfs) "metadata" with _ | mj
  · simp [h1, h2, h3, hmeta, jsonResponse]
  · rw [hmeta] at h4
    cases mj <;> simp_all [jsonResponse]

/-- C4: an authenticated a2u_create whose payload has a non-finite or
non-positive amount, an empty-after-trim uid or memo, or a metadata field that
is missing, not an object, or an array, fails with 400 before any upstream
call: the whole trace is the session check alone -- no fetch and no ledger
call. -/
theorem a2u_create_invalid_argument (w : World) (m hdr u k : String) (bj : Json)
    (pfs : List (String × Json))
    (hm : m ≠ "OPTIONS")
    (hact : nonEmptyStrField (bj.getField "action") = some "a2u_create")
    (hbearer : startsWithStr hdr "Bearer " = true)
    (hgu : w.getUser (replaceFirst hdr "Bearer " "") = ⟨some u, none⟩)
    (hkey : w.env "PI_API_KEY" = some k) (hk : k ≠ "")
    (hpay : bj.getField "payment" = some (.obj pfs))
    (hbad : finPos (toNumber (Json.getField (.obj pfs) "amount")) = false ∨
      strFieldTrim (Json.getField (.obj pfs) "uid") = "" ∨
      strFieldTrim (Json.getField (.obj pfs) "memo") = "" ∨
      (match Json.getField (.obj pfs) "metadata" with
       | some (Json.obj _) => true
       | _ => false) = false) :
    (serve w ⟨m, some hdr, bj⟩).resp.status = 400 ∧
    (serve w ⟨m, some hdr, bj⟩).calls = [Call.getUser (replaceFirst hdr "Bearer " "")] := by
  rw [serve_auth w m hdr bj "a2u_create" u k hm hact (by decide) hbearer hgu hkey hk]
  simp only [reduceIte, String.reduceEq, if_false, if_true, ite_false, ite_true]
  rw [hpay]
  obtain ⟨hs, hc⟩ := handleA2uCreate_invalid w pfs hbad
  exact ⟨hs, by rw [withCalls, hc]; rfl⟩

def bodyC4 : Json :=
  Json.obj [("action", Json.str "a2u_create"),
    ("payment", Json.obj [("amount", Json.num 0), ("uid", Json.str "u1"),
      ("memo", Json.str "payout"), ("metadata", Json.obj [])])]

/-- C4 witness: amount 0 is rejected with 400 after only the session check. -/
theorem a2u_create_invalid_argument_witness :
    (serve worldC2 ⟨"POST", some "Bearer tok", bodyC4⟩).resp.status = 400 ∧
    (serve worldC2 ⟨"POST", some "Bearer tok", bodyC4⟩).calls = [Call.getUser "tok"] :=
  a2u_create_invalid_argument worldC2 "POST" "Bearer tok" "user-1" "k1" bodyC4
    [("amount", Json.num 0), ("uid", Json.str "u1"), ("memo", Json.str "payout"),
      ("metadata", Json.obj [])]
    (by decide) rfl (by decide) rfl rfl (by decide) rfl (Or.inl (by decide))

/-- C10 (implicit): when the incomplete-payments listing returns non-2xx,
a2u_create neither 409s nor reuses: with no assumption at all on the response
body, it proceeds straight to the create POST, so the one-in-flight guard is
not enforced on that path. -/
theorem a2u_create_listing_failure_skips_guard (w : World) (m hdr u k : String) (bj : Json)
    (pfs : List (String × Json)) (pr : HttpResp)
    (hm : m ≠ "OPTIONS")
    (hact : nonEmptyStrField (bj.getField "action") = some "a2u_create")
    (hbearer : startsWithStr hdr "Bearer " = true)
    (hgu : w.getUser (replaceFirst hdr "Bearer " "") = ⟨some u, none⟩)
    (hkey : w.env "PI_API_KEY" = some k) (hk : k ≠ "")
    (hpay : bj.getField "payment" = some (.obj pfs))
    (hamt : finPos (toNumber (Json.getField (.obj pfs) "amount")) = true)
    (huid : strFieldTrim (Json.getField (.obj pfs) "uid") ≠ "")
    (hmemo : strFieldTrim (Json.getField (.obj pfs) "memo") ≠ "")
    (hmeta : ∃ ms, Json.getField (.obj pfs) "metadata" = some (.obj ms))
    (hpend : w.fetch incompleteUrl "GET" none = .ok pr)
    (hnok : pr.ok = false) :
    (serve w ⟨m, some hdr, bj⟩).calls =
      [Call.getUser (replaceFirst hdr "Bearer " ""), Call.fetch incompleteUrl "GET" none,
       Call.fetch paymentsUrl "POST" (some (stringify (.obj pfs)))] := by
  rcases hmeta with ⟨ms, hmeta⟩
  rw [serve_auth w m hdr bj "a2u_create" u k hm hact (by decide) hbearer hgu hkey hk]
  simp only [reduceIte, String.reduceEq, if_false, if_true, ite_false, ite_true]
  rw [hpay]
  unfold handleA2uCreate
  simp [hamt, huid, hmemo, hmeta, hpend, hnok, withCalls, a2uCreatePost_calls]

def worldC10 : World :=
  ⟨fun n => if n = "PI_API_KEY" then some "k1" else none,
   fun _ => ⟨some "user-1", none⟩,
   fun url _ _ =>
     if url = incompleteUrl then .ok ⟨false, 500, "oops"⟩
     else if url = paymentsUrl then .ok ⟨true, 200, createdBody⟩
     else .error "unexpected fetch",
   fun _ => .error "no keypair", fun _ _ => .error "no ledger", fun _ => .error "no ledger",
   fun _ _ => .error "no ledger"⟩

/-- C10 witness: a 500 from the listing endpoint is followed directly by the
create POST. -/
theorem a2u_create_listing_failure_skips_guard_witness :
    (serve worldC10 ⟨"POST", some "Bearer tok", bodyC2⟩).calls =
      [Call.getUser "tok", Call.fetch incompleteUrl "GET" none,
       Call.fetch paymentsUrl "POST" (some (stringify (Json.obj [("amount", Json.num 5),
         ("uid", Json.str "u1"), ("memo", Json.str "payout"),
         ("metadata", Json.obj [("note", Json.str "x")])])))] :=
  a2u_create_listing_failure_skips_guard worldC10 "POST" "Bearer tok" "user-1" "k1" bodyC2
    [("amount", Json.num 5), ("uid", Json.str "u1"), ("memo", Json.str "payout"),
      ("metadata", Json.obj [("note", Json.str "x")])]
    ⟨false, 500, "oops"⟩
    (by decide) rfl (by decide) rfl rfl (by decide) rfl (by decide) (by decide) (by decide)
    ⟨[("note", Json.str "x")], rfl⟩ rfl rfl

/-- C6: an a2u_complete without an explicit txid, whose fetched payment record
already carries a settled transaction id, issues the platform complete call
with exactly that id as the body txid; the trace holds the record fetch and
the complete call only -- no ledger operation. -/
theorem a2u_complete_reuses_existing_txid (w : World) (m hdr u k pid T : String) (bj : Json)
    (fr : HttpResp)
    (hm : m ≠ "OPTIONS")
    (hact : nonEmptyStrField (bj.getField "action") = some "a2u_complete")
    (hbearer : startsWithStr hdr "Bearer " = true)
    (hgu : w.getUser (replaceFirst hdr "Bearer " "") = ⟨some u, none⟩)
    (hkey : w.env "PI_API_KEY" = some k) (hk : k ≠ "")
    (hpid : bj.getField "paymentId" = some (.str pid)) (hpne : pid ≠ "")
    (htx : strFieldTrim (bj.getField "txid") = "")
    (hfp : w.fetch (paymentUrl pid) "GET" none = .ok fr)
    (hfok : fr.ok = true)
    (hext : trimStr (strCoerce (((parseJson fr.body).getField "transaction").bind
      (fun t => t.getField "txid"))) = T)
    (hT : T ≠ "") :
    (serve w ⟨m, some hdr, bj⟩).calls =
      [Call.getUser (replaceFirst hdr "Bearer " ""), Call.fetch (paymentUrl pid) "GET" none,
       Call.fetch (paymentUrl pid ++ "/complete") "POST"
         (some (stringify (.obj [("txid", .str T)])))] := by
  rw [serve_auth w m hdr bj "a2u_complete" u k hm hact (by decide) hbearer hgu hkey hk]
  simp only [reduceIte, String.reduceEq, if_false, if_true, ite_false, ite_true]
  rw [hpid]
  unfold handlePaymentAction
  simp [nonEmptyStrField, hpne, htx, hfp, hfok, hext, hT, withCalls, finalCall_calls]

def payRecSettled : String :=
  "\x7b\"direction\":\"app_to_user\",\"transaction\":\x7b\"txid\":\"H9\"\x7d\x7d"

def bodyC6 : Json :=
  Json.obj [("action", Json.str "a2u_complete"), ("paymentId", Json.str "P1")]

def worldC6 : World :=
  ⟨fun n => if n = "PI_API_KEY" then some "k1" else none,
   fun _ => ⟨some "user-1", none⟩,
   fun url _ _ =>
     if url = paymentUrl "P1" then .ok ⟨true, 200, payRecSettled⟩
     else .ok ⟨true, 200, ""⟩,
   fun _ => .error "no keypair", fun _ _ => .error "no ledger", fun _ => .error "no ledger",
   fun _ _ => .error "no ledger"⟩

/-- C6 witness: the record's settled txid H9 is reused; no ledger call. -/
theorem a2u_complete_reuses_existing_txid_witness :
    (serve worldC6 ⟨"POST", some "Bearer tok", bodyC6⟩).calls =
      [Call.getUser "tok", Call.fetch (paymentUrl "P1") "GET" none,
       Call.fetch (paymentUrl "P1" ++ "/complete") "POST"
         (some (stringify (Json.obj [("txid", Json.str "H9")])))] :=
  a2u_complete_reuses_existing_txid worldC6 "POST" "Bearer tok" "user-1" "k1" "P1" "H9"
    bodyC6 ⟨true, 200, payRecSettled⟩
    (by decide) rfl (by decide) rfl rfl (by decide) rfl (by decide) rfl rfl rfl rfl (by decide)

def bodyC7 : Json :=
  Json.obj [("action", Json.str "complete"), ("paymentId", Json.str "P1"),
    ("txid", Json.str " H1 ")]

/-- C7 counterexample: a complete request supplying the explicit non-empty
txid " H1 " produces a platform complete body whose txid is the trimmed "H1",
not the supplied value, refuting "the body is exactly (txid: the supplied
value)". -/
theorem complete_explicit_txid_counterexample :
    (serve worldC6 ⟨"POST", some "Bearer tok", bodyC7⟩).calls =
      [Call.getUser "tok",
       Call.fetch (paymentUrl "P1" ++ "/complete") "POST" (some "\x7b\"txid\":\"H1\"\x7d")] ∧
    (" H1 " : String) ≠ "H1" :=
  ⟨rfl, by decide⟩

/-- C7 (amended): a complete-family request with an explicit txid that is
nonempty after trimming issues the platform complete call with body exactly
the object carrying the trimmed txid; no payment-record fetch and no ledger
call occur -- the trace is the session check and that single POST. -/
theorem complete_explicit_txid (w : World) (m hdr u k pid t act : String) (bj : Json)
    (hm : m ≠ "OPTIONS")
    (hfam : act = "complete" ∨ act = "payment_complete" ∨ act = "a2u_complete")
    (hact : nonEmptyStrField (bj.getField "action") = some act)
    (hbearer : startsWithStr hdr "Bearer " = true)
    (hgu : w.getUser (replaceFirst hdr "Bearer " "") = ⟨some u, none⟩)
    (hkey : w.env "PI_API_KEY" = some k) (hk : k ≠ "")
    (hpid : bj.getField "paymentId" = some (.str pid)) (hpne : pid ≠ "")
    (htx : bj.getField "txid" = some (.str t))
    (htne : trimStr t ≠ "") :
    (serve w ⟨m, some hdr, bj⟩).calls =
      [Call.getUser (replaceFirst hdr "Bearer " ""),
       Call.fetch (paymentUrl pid ++ "/complete") "POST"
         (some (stringify (.obj [("txid", .str (trimStr t))])))] := by
  have hav : act ≠ "auth_verify" := by rcases hfam with rfl | rfl | rfl <;> decide
  rw [serve_auth w m hdr bj act u k hm hact hav hbearer hgu hkey hk]
  rcases hfam with rfl | rfl | rfl <;>
    (simp only [reduceIte, String.reduceEq, if_false, if_true, ite_false, ite_true]
     rw [hpid]
     unfold handlePaymentAction
     simp [nonEmptyStrField, hpne, htx, strFieldTrim, htne, withCalls, finalCall_calls])

/-- C7 witness: the amended theorem applied at the counterexample's input --
supplied txid " H1 ", trimmed body txid "H1". -/
theorem complete_explicit_txid_witness :
    (serve worldC6 ⟨"POST", some "Bearer tok", bodyC7⟩).calls =
      [Call.getUser "tok",
       Call.fetch (paymentUrl "P1" ++ "/complete") "POST"
         (some (stringify (Json.obj [("txid", Json.str (trimStr " H1 "))])))] :=
  complete_explicit_txid worldC6 "POST" "Bearer tok" "user-1" "k1" "P1" " H1 " "complete"
    bodyC7 (by decide) (Or.inl rfl) rfl (by decide) rfl rfl (by decide) rfl (by decide)
    rfl (by decide)

/-- C9: for a request with a valid non-auth_verify action, a missing
Authorization header, a non-Bearer header, or a failing user verification
each end the request with 401 and a trace containing no fetch and no ledger
call (at most the getUser check itself) -- no action logic runs. -/
theorem unauthorized_before_action (w : World) (m : String) (ah : Option String)
    (bj : Json) (act : String)
    (hm : m ≠ "OPTIONS")
    (hact : nonEmptyStrField (bj.getField "action") = some act)
    (hav : act ≠ "auth_verify")
    (hbad : ah = none ∨
      (∃ hd, ah = some hd ∧ startsWithStr hd "Bearer " = false) ∨
      (∃ hd, ah = some hd ∧ startsWithStr hd "Bearer " = true ∧
        ((w.getUser (replaceFirst hd "Bearer " "")).error.isSome = true ∨
         (w.getUser (replaceFirst hd "Bearer " "")).user = none))) :
    (serve w ⟨m, ah, bj⟩).resp.status = 401 ∧
    ∀ c ∈ (serve w ⟨m, ah, bj⟩).calls, isFetch c = false ∧ isLedgerCall c = false := by
  have hnn := action_isNull_false hact
  rcases hbad with rfl | ⟨hd, rfl, hnb⟩ | ⟨hd, rfl, hb, hfail⟩
  · unfold serve
    simp [hm, hnn, hact, hav, jsonResponse]
  · unfold serve
    simp [hm, hnn, hact, hav, hnb, jsonResponse]
  · unfold serve
    rcases hfail with hf | hf <;>
      simp [hm, hnn, hact, hav, hb, hf, jsonResponse, isFetch, isLedgerCall]

/-- C9 witness: a request with no Authorization header is 401 with an empty
trace. -/
theorem unauthorized_before_action_witness :
    (serve worldC6 ⟨"POST", none, bodyC6⟩).resp.status = 401 ∧
    ∀ c ∈ (serve worldC6 ⟨"POST", none, bodyC6⟩).calls,
      isFetch c = false ∧ isLedgerCall c = false :=
  unauthorized_before_action worldC6 "POST" none bodyC6 "a2u_complete"
    (by decide) rfl (by decide) (Or.inl rfl)

/-- On the settlement-requiring a2u_complete path (no explicit txid, record
fetched, no settled txid, direction app_to_user, seed configured), the
handler's result is determined by the settlement submission: a thrown
settlement becomes the 500 with no further call, a settled hash flows into
the final complete POST. -/
theorem handlePaymentAction_a2u_complete_settle (w : World) (pid : String) (txf : Option Json)
    (fr : HttpResp) (seed pub : String)
    (hpne : pid ≠ "")
    (htx : strFieldTrim txf = "")
    (hfp : w.fetch (paymentUrl pid) "GET" none = .ok fr)
    (hfok : fr.ok = true)
    (hext : trimStr (strCoerce (((parseJson fr.body).getField "transaction").bind
      (fun t => t.getField "txid"))) = "")
    (hdir : trimStr (strCoerce ((parseJson fr.body).getField "direction")) = "app_to_user")
    (hseed : trimStr (envStr w "PI_WALLET_PRIVATE_SEED") = seed) (hsne : seed ≠ "")
    (hpub : trimStr (envStr w "PI_WALLET_PUBLIC_ADDRESS") = pub) :
    handlePaymentAction w "a2u_complete" (some (.str pid)) txf =
      (match submitA2UTx w (parseJson fr.body) seed pub with
       | (.error e, sub) => ⟨jsonResponse (.obj [("error", .str e)]) 500,
           Call.fetch (paymentUrl pid) "GET" none :: sub⟩
       | (.ok h, sub) => withCalls (Call.fetch (paymentUrl pid) "GET" none :: sub)
           (finalCall w (paymentUrl pid ++ "/complete") "POST"
             (some (.obj [("txid", .str h)])))) := by
  unfold handlePaymentAction
  simp only [nonEmptyStrField, hpne, htx, hfp, hfok, hext, hdir, hseed, hsne, hpub,
    reduceIte, String.reduceEq, if_false, if_true, ite_false, ite_true]
  rcases hs : submitA2UTx w (parseJson fr.body) seed pub with ⟨res, sub⟩
  simp [hs, hpne, htx, hfp, hfok, hext, hdir, hseed, hsne, hpub]

/-- C1: on an a2u_complete without an explicit txid whose fetched record has
direction app_to_user and no settled transaction id, the platform complete
endpoint is called only after the ledger submission succeeds: if the
settlement submission throws, the response is the 500 carrying its message
and the trace holds no fetch to the complete endpoint at all; if it returns
the hash h, the trace is the session check, the record fetch, the ledger
calls (among them the transaction submission), and then -- last -- the
complete POST whose body carries exactly h as txid. -/
theorem a2u_complete_settlement_gates_complete (w : World) (m hdr u k pid seed pub : String)
    (bj : Json) (fr : HttpResp)
    (hm : m ≠ "OPTIONS")
    (hact : nonEmptyStrField (bj.getField "action") = some "a2u_complete")
    (hbearer : startsWithStr hdr "Bearer " = true)
    (hgu : w.getUser (replaceFirst hdr "Bearer " "") = ⟨some u, none⟩)
    (hkey : w.env "PI_API_KEY" = some k) (hk : k ≠ "")
    (hpid : bj.getField "paymentId" = some (.str pid)) (hpne : pid ≠ "")
    (htx : strFieldTrim (bj.getField "txid") = "")
    (hfp : w.fetch (paymentUrl pid) "GET" none = .ok fr)
    (hfok : fr.ok = true)
    (hext : trimStr (strCoerce (((parseJson fr.body).getField "transaction").bind
      (fun t => t.getField "txid"))) = "")
    (hdir : trimStr (strCoerce ((parseJson fr.body).getField "direction")) = "app_to_user")
    (hseed : trimStr (envStr w "PI_WALLET_PRIVATE_SEED") = seed) (hsne : seed ≠ "")
    (hpub : trimStr (envStr w "PI_WALLET_PUBLIC_ADDRESS") = pub) :
    (∀ e, (submitA2UTx w (parseJson fr.body) seed pub).1 = .error e →
      serve w ⟨m, some hdr, bj⟩ =
        ⟨jsonResponse (.obj [("error", .str e)]) 500,
         Call.getUser (replaceFirst hdr "Bearer " "") ::
           Call.fetch (paymentUrl pid) "GET" none ::
           (submitA2UTx w (parseJson fr.body) seed pub).2⟩ ∧
      ∀ c ∈ (serve w ⟨m, some hdr, bj⟩).calls,
        isFetchTo (paymentUrl pid ++ "/complete") c = false) ∧
    (∀ h, (submitA2UTx w (parseJson fr.body) seed pub).1 = .ok h →
      (serve w ⟨m, some hdr, bj⟩).calls =
        (Call.getUser (replaceFirst hdr "Bearer " "") ::
          Call.fetch (paymentUrl pid) "GET" none ::
          (submitA2UTx w (parseJson fr.body) seed pub).2) ++
        [Call.fetch (paymentUrl pid ++ "/complete") "POST"
          (some (stringify (.obj [("txid", .str h)])))] ∧
      ∃ hu stx, Call.submitTx hu stx ∈ (submitA2UTx w (parseJson fr.body) seed pub).2) := by
  rw [serve_auth w m hdr bj "a2u_complete" u k hm hact (by decide) hbearer hgu hkey hk]
  simp only [reduceIte, String.reduceEq, if_false, if_true, ite_false, ite_true]
  rw [hpid, handlePaymentAction_a2u_complete_settle w pid (bj.getField "txid") fr seed pub
    hpne htx hfp hfok hext hdir hseed hsne hpub]
  have hled := submitA2UTx_calls_ledger w (parseJson fr.body) seed pub
  have hmem := submitA2UTx_ok_mem_submit w (parseJson fr.body) seed pub
  rcases hs : submitA2UTx w (parseJson fr.body) seed pub with ⟨res, sub⟩
  rw [hs] at hled hmem
  constructor
  · intro e he
    simp only at he
    subst he
    constructor
    · simp [withCalls]
    · intro c hc
      simp [withCalls] at hc
      rcases hc with rfl | rfl | hc
      · rfl
      · exact decide_eq_false (ne_self_append_complete (paymentUrl pid))
      · exact isLedgerCall_not_fetchTo c _ (hled c hc)
  · intro h hok
    simp only at hok
    subst hok
    constructor
    · simp [withCalls, finalCall_calls]
    · exact hmem h rfl

def payRecUnsettled : String :=
  "\x7b\"identifier\":\"P1\",\"direction\":\"app_to_user\",\"to_address\":\"GDEST\",\"from_address\":\"GS1\",\"amount\":5\x7d"

def envC1 : String → Option String := fun n =>
  if n = "PI_API_KEY" then some "k1"
  else if n = "PI_WALLET_PRIVATE_SEED" then some "S1"
  else if n = "PI_WALLET_PUBLIC_ADDRESS" then some "GS1"
  else none

def worldC1ok : World :=
  ⟨envC1, fun _ => ⟨some "user-1", none⟩,
   fun url m _ =>
     if url = paymentUrl "P1" ∧ m = "GET" then .ok ⟨true, 200, payRecUnsettled⟩
     else .ok ⟨true, 200, ""⟩,
   fun s => .ok ("G" ++ s),
   fun _ a => .ok ⟨a, 7⟩,
   fun _ => .ok 100,
   fun _ _ => .ok (Json.obj [("hash", Json.str "HASH1")])⟩

def worldC1err : World :=
  ⟨envC1, fun _ => ⟨some "user-1", none⟩,
   fun url m _ =>
     if url = paymentUrl "P1" ∧ m = "GET" then .ok ⟨true, 200, payRecUnsettled⟩
     else .ok ⟨true, 200, ""⟩,
   fun s => .ok ("G" ++ s),
   fun _ a => .ok ⟨a, 7⟩,
   fun _ => .ok 100,
   fun _ _ => .error "tx_failed"⟩

/-- C1 witness: in a world where the ledger rejects the transaction the 500
carries the rejection and the complete endpoint is never fetched; in a world
where submission yields HASH1 the complete POST carrying HASH1 is the final
call, preceded by the submit call. -/
theorem a2u_complete_settlement_gates_complete_witness :
    (serve worldC1err ⟨"POST", some "Bearer tok", bodyC6⟩ =
      ⟨jsonResponse (.obj [("error", .str "tx_failed")]) 500,
       Call.getUser "tok" :: Call.fetch (paymentUrl "P1") "GET" none ::
         (submitA2UTx worldC1err (parseJson payRecUnsettled) "S1" "GS1").2⟩ ∧
     ∀ c ∈ (serve worldC1err ⟨"POST", some "Bearer tok", bodyC6⟩).calls,
       isFetchTo (paymentUrl "P1" ++ "/complete") c = false) ∧
    ((serve worldC1ok ⟨"POST", some "Bearer tok", bodyC6⟩).calls =
      (Call.getUser "tok" :: Call.fetch (paymentUrl "P1") "GET" none ::
        (submitA2UTx worldC1ok (parseJson payRecUnsettled) "S1" "GS1").2) ++
      [Call.fetch (paymentUrl "P1" ++ "/complete") "POST"
        (some (stringify (.obj [("txid", .str "HASH1")])))] ∧
     ∃ hu stx, Call.submitTx hu stx ∈
       (submitA2UTx worldC1ok (parseJson payRecUnsettled) "S1" "GS1").2) :=
  ⟨(a2u_complete_settlement_gates_complete worldC1err "POST" "Bearer tok" "user-1" "k1"
      "P1" "S1" "GS1" bodyC6 ⟨true, 200, payRecUnsettled⟩
      (by decide) rfl (by decide) rfl rfl (by decide) rfl (by decide) rfl rfl rfl
      rfl rfl rfl (by decide) rfl).1 "tx_failed" rfl,
   (a2u_complete_settlement_gates_complete worldC1ok "POST" "Bearer tok" "user-1" "k1"
      "P1" "S1" "GS1" bodyC6 ⟨true, 200, payRecUnsettled⟩
      (by decide) rfl (by decide) rfl rfl (by decide) rfl (by decide) rfl rfl rfl
      rfl rfl rfl (by decide) rfl).2 "HASH1" rfl⟩

end OpenPay
